import Mathlib

/-!
# Verification of the budget-pc-parts catalog services

Shallow embedding of `src/app/models.py` and `src/app/services.py`.
Conventions of the embedding:

* Monetary values (`Decimal` with `decimal_places=2`) are modelled as integer
  cents (`Int`), an order-isomorphic representation: `Decimal("299.99")` is
  `29999`, the fallback `Decimal("1000")` is `100000`.
* Timestamps (`datetime`) are modelled as `Nat` ticks; `created_at.isoformat()`
  is an injective rendering of the timestamp, so `ProductSummary.created_at`
  keeps the `Nat` value.
* Row ids are `Optional[int]` in the Python models only because they are
  `None` before insertion; every row stored in the database carries an id, so
  the embedding gives stored rows an `id : Nat`.  `ProductSummary.id` is built
  as `product.id or 0`, which agrees with `product.id` on stored rows.
* The database session (`app/database.py` is not part of the sources; only its
  callers are) is modelled as explicit state: a `DB` record holding the four
  tables as lists in insertion order.  A SQL `SELECT` without `ORDER BY`
  yields the rows in table order; `ORDER BY created_at DESC` is modelled by a
  stable insertion sort (SQL leaves the order of equal keys implementation
  defined; the model fixes one deterministic choice).
* JSON payloads: `specifications` values in this repository are all strings,
  so the field is a `List (String × String)`; `features` is a `List String`.
-/

/-- Status enum `ProductStatus` from `models.py`. -/
inductive ProductStatus where
  | active
  | out_of_stock
  | discontinued
deriving DecidableEq, Repr

/-- Row of the `categories` table (`models.py`).  Relationship fields are resolved
through the `DB` state rather than stored. -/
structure Category where
  id : Nat
  name : String
  description : String
  slug : String
  parent_id : Option Nat
  is_active : Bool
  created_at : Nat
deriving DecidableEq, Repr

/-- Row of the `brands` table (`models.py`). -/
structure Brand where
  id : Nat
  name : String
  description : String
  logo_url : Option String
  website_url : Option String
  is_active : Bool
  created_at : Nat
deriving DecidableEq, Repr

/-- Row of the `products` table (`models.py`); `price` is integer cents. -/
structure Product where
  id : Nat
  name : String
  description : String
  sku : String
  price : Int
  original_price : Option Int
  status : ProductStatus
  category_id : Option Nat
  brand_id : Option Nat
  specifications : List (String × String)
  features : List String
  stock_quantity : Nat
  min_stock_level : Nat
  slug : String
  meta_title : Option String
  meta_description : Option String
  created_at : Nat
  updated_at : Nat
deriving DecidableEq, Repr

/-- Row of the `product_images` table (`models.py`). -/
structure ProductImage where
  id : Nat
  product_id : Nat
  image_url : String
  alt_text : String
  is_primary : Bool
  display_order : Nat
  created_at : Nat
deriving DecidableEq, Repr

/-- The relational store: the four tables, rows in insertion order. -/
structure DB where
  categories : List Category
  brands : List Brand
  products : List Product
  images : List ProductImage
deriving DecidableEq, Repr

/-- Filter schema `ProductFilter` (`models.py`). -/
structure ProductFilter where
  category_id : Option Nat := none
  brand_id : Option Nat := none
  min_price : Option Int := none
  max_price : Option Int := none
  status : Option ProductStatus := none
  in_stock_only : Bool := false
  search_query : Option String := none
deriving DecidableEq, Repr

/-- Projection schema `ProductSummary` (`models.py`). -/
structure ProductSummary where
  id : Nat
  name : String
  price : Int
  original_price : Option Int
  status : ProductStatus
  primary_image_url : Option String
  category_name : Option String
  brand_name : Option String
  stock_quantity : Nat
  created_at : Nat
deriving DecidableEq, Repr

/-! ## SQL `ILIKE` semantics

`get_products` issues `products.name ILIKE :search` with the bound pattern
the percent-wrapped query.  PostgreSQL `LIKE` patterns treat `%` as "any sequence", `_` as
"any single character", and backslash as the escape character (a pattern
ending in a dangling escape matches nothing; PostgreSQL raises an error
there).  `ILIKE` lowercases both sides first; for the ASCII data of this
application that is the ASCII lowercase map. -/

/-- ASCII lowercase of one character (the case folding PostgreSQL `ILIKE`
and Python `str.lower` perform on the ASCII range). -/
def lowerChar (c : Char) : Char :=
  if 65 ≤ c.toNat ∧ c.toNat ≤ 90 then Char.ofNat (c.toNat + 32) else c

/-- ASCII lowercase of a character list. -/
def lowerL (s : List Char) : List Char := s.map lowerChar

/-- Does the string start with the character `c`? -/
def headIs (c : Char) : List Char → Bool
  | [] => false
  | d :: _ => c = d

/-- SQL `LIKE` pattern matching: does pattern `p` match the whole string
`s`?  `%` matches any sequence, `_` any single character, `\` escapes the
following pattern character; a dangling `\` matches nothing. -/
def likeMatch : List Char → List Char → Bool
  | [], s => s.isEmpty
  | c :: ps, s =>
    if c = '%' then s.tails.any (fun t => likeMatch ps t)
    else if c = '_' then !s.isEmpty && likeMatch ps s.tail
    else if c = '\\' then
      match ps with
      | [] => false
      | c2 :: ps2 => headIs c2 s && likeMatch ps2 s.tail
    else headIs c s && likeMatch ps s.tail

/-- Case-insensitive `LIKE`: `lhs ILIKE pattern`. -/
def ilikeMatch (pat s : String) : Bool :=
  likeMatch (lowerL pat.data) (lowerL s.data)

/-! ## ProductService -/

/-- The conjunction of `WHERE` clauses `ProductService.get_products` builds
from a `ProductFilter` (services.py lines 17–43).  Note Python truthiness:
the search clause is only added when `search_query` is a non-empty string,
and the stock clause only when `in_stock_only` is `True`. -/
def matchesFilter (f : ProductFilter) (p : Product) : Bool :=
  (match f.category_id with
   | none => true
   | some c => p.category_id == some c) &&
  (match f.brand_id with
   | none => true
   | some b => p.brand_id == some b) &&
  (match f.min_price with
   | none => true
   | some m => m ≤ p.price) &&
  (match f.max_price with
   | none => true
   | some m => p.price ≤ m) &&
  (match f.status with
   | none => true
   | some st => p.status == st) &&
  (!f.in_stock_only || decide (0 < p.stock_quantity)) &&
  (match f.search_query with
   | none => true
   | some q =>
     if q = "" then true
     else
       ilikeMatch ("%" ++ q ++ "%") p.name || ilikeMatch ("%" ++ q ++ "%") p.description)

/-- Stable insertion of a product into a list sorted by `created_at`
descending. -/
def insertDesc (p : Product) : List Product → List Product
  | [] => [p]
  | q :: qs => if p.created_at ≤ q.created_at then q :: insertDesc p qs else p :: q :: qs

/-- Ordering `ORDER BY products.created_at DESC` (services.py line 46), modelled as a
stable sort; SQL leaves the relative order of equal timestamps
implementation defined. -/
def sortByCreatedDesc : List Product → List Product
  | [] => []
  | p :: ps => insertDesc p (sortByCreatedDesc ps)

/-- The per-row projection of `get_products` (services.py lines 52–73): the
dependent primary-image lookup (`WHERE is_primary LIMIT 1`, table order) and
the denormalised category/brand names via the relationship on the foreign
keys. -/
def mkSummary (db : DB) (p : Product) : ProductSummary :=
  { id := p.id
    name := p.name
    price := p.price
    original_price := p.original_price
    status := p.status
    primary_image_url :=
      (db.images.find? (fun img => img.product_id == p.id && img.is_primary)).map
        (fun img => img.image_url)
    category_name :=
      (p.category_id.bind (fun cid => db.categories.find? (fun c => c.id == cid))).map
        (fun c => c.name)
    brand_name :=
      (p.brand_id.bind (fun bid => db.brands.find? (fun b => b.id == bid))).map
        (fun b => b.name)
    stock_quantity := p.stock_quantity
    created_at := p.created_at }

/-- Embedding of `ProductService.get_products`.  The `LEFT OUTER JOIN`s to categories and
brands only supply the denormalised names (ids are unique keys, so they do
not change product multiplicity); filtering, ordering, `OFFSET`, `LIMIT`,
then the summary projection. -/
def getProducts (db : DB) (filters : Option ProductFilter) (limit : Nat) (offset : Nat) :
    List ProductSummary :=
  let filtered :=
    match filters with
    | none => db.products
    | some f => db.products.filter (matchesFilter f)
  let ordered := sortByCreatedDesc filtered
  ((ordered.drop offset).take limit).map (mkSummary db)

/-- Embedding of `ProductService.get_product_by_id`: primary-key lookup. -/
def getProductById (db : DB) (product_id : Nat) : Option Product :=
  db.products.find? (fun p => p.id == product_id)

/-- Embedding of `ProductService.get_price_range` (services.py lines 105–115).  The
`price is not None` guard of line 114 never filters anything: `Product.price`
is a non-optional field. -/
def getPriceRange (db : DB) : Int × Int :=
  let products := db.products.filter (fun p => p.status == ProductStatus.active)
  if products.isEmpty then (0, 100000)
  else
    let prices := products.map (fun p => p.price)
    (match prices with
     | [] => 0
     | p :: rest => rest.foldl min p,
     match prices with
     | [] => 100000
     | p :: rest => rest.foldl max p)

/-- Embedding of `ProductService.search_products`: `get_products` with a search query and
`status=ACTIVE`. -/
def searchProducts (db : DB) (query : String) (limit : Nat) : List ProductSummary :=
  getProducts db (some { status := some ProductStatus.active, search_query := some query }) limit 0

/-! ## CategoryService and BrandService -/

/-- Embedding of `CategoryService.get_category_by_id`: primary-key lookup. -/
def getCategoryById (db : DB) (category_id : Nat) : Option Category :=
  db.categories.find? (fun c => c.id == category_id)

/-- Embedding of `BrandService.get_brand_by_id`: primary-key lookup. -/
def getBrandById (db : DB) (brand_id : Nat) : Option Brand :=
  db.brands.find? (fun b => b.id == brand_id)

/-- Lexicographic comparison of character lists by code point, the order
`ORDER BY name` applies to the ASCII names of this application. -/
def charListLe : List Char → List Char → Bool
  | [], _ => true
  | _ :: _, [] => false
  | c :: cs, d :: ds =>
    if c.toNat < d.toNat then true
    else if d.toNat < c.toNat then false
    else charListLe cs ds

/-- String comparison for `ORDER BY name`. -/
def strLe (a b : String) : Bool := charListLe a.data b.data

/-- Stable insertion into a list of values sorted ascending by a `String`
key. -/
def insertByName {α : Type} (key : α → String) (x : α) : List α → List α
  | [] => [x]
  | y :: ys => if strLe (key y) (key x) then y :: insertByName key x ys else x :: y :: ys

/-- Ordering `ORDER BY name` over a table, modelled as a stable insertion sort. -/
def sortByName {α : Type} (key : α → String) : List α → List α
  | [] => []
  | x :: xs => insertByName key x (sortByName key xs)

/-- Embedding of `CategoryService.get_categories_with_product_counts` (services.py lines
155–171): active categories ordered by name, each paired with the number of
its products whose status is `ACTIVE`. -/
def categoriesWithProductCounts (db : DB) : List (Category × Nat) :=
  (sortByName (fun c => c.name) (db.categories.filter (fun c => c.is_active))).map
    (fun c =>
      (c, (db.products.filter
            (fun p => p.category_id == some c.id && p.status == ProductStatus.active)).length))

/-- Embedding of `BrandService.get_brands_with_product_counts` (services.py lines
189–203). -/
def brandsWithProductCounts (db : DB) : List (Brand × Nat) :=
  (sortByName (fun b => b.name) (db.brands.filter (fun b => b.is_active))).map
    (fun b =>
      (b, (db.products.filter
            (fun p => p.brand_id == some b.id && p.status == ProductStatus.active)).length))

/-! ## DataSeederService

`seed_sample_data` checks whether any product row exists and, if not,
inserts 8 categories, 8 brands, 8 products and 8 images, committing in
stages so that the generated ids of earlier stages can be referenced by the
later ones.  Id generation lives in the database layer (`app/database.py`,
not part of the sources); the model continues the id sequence of each table from
its current row count, so the i-th new row of a table holding `n` rows gets
id `n + i + 1`.  `datetime.utcnow` defaults are modelled as consecutive
ticks in insertion order. -/

/-- The `cat_data_list` of `seed_sample_data`: (name, slug, description). -/
def seedCategoryData : List (String × String × String) :=
  [("Graphics Cards", "graphics-cards", "GPU cards for gaming performance"),
   ("Processors", "processors", "CPUs for gaming builds"),
   ("Memory", "memory", "RAM modules for gaming systems"),
   ("Storage", "storage", "SSDs and HDDs for games"),
   ("Motherboards", "motherboards", "Motherboards for gaming builds"),
   ("Power Supplies", "power-supplies", "PSUs for gaming systems"),
   ("Cases", "cases", "PC cases for gaming builds"),
   ("Peripherals", "peripherals", "Gaming keyboards, mice, and headsets")]

/-- The `brand_data_list` of `seed_sample_data`: (name, description). -/
def seedBrandData : List (String × String) :=
  [("NVIDIA", "Leading GPU manufacturer"),
   ("AMD", "CPU and GPU manufacturer"),
   ("Intel", "Leading CPU manufacturer"),
   ("Corsair", "Gaming hardware manufacturer"),
   ("ASUS", "Computer hardware manufacturer"),
   ("MSI", "Gaming hardware specialist"),
   ("Kingston", "Memory and storage solutions"),
   ("Seagate", "Storage solutions")]

/-- The categories the seeder inserts into a table currently holding `n`
rows; the unset model fields take their `models.py` defaults. -/
def seededCategories (n : Nat) : List Category :=
  seedCategoryData.enum.map (fun e =>
    { id := n + e.1 + 1
      name := e.2.1
      slug := e.2.2.1
      description := e.2.2.2
      parent_id := none
      is_active := true
      created_at := e.1 + 1 })

/-- The brands the seeder inserts into a table currently holding `n` rows. -/
def seededBrands (n : Nat) : List Brand :=
  seedBrandData.enum.map (fun e =>
    { id := n + e.1 + 1
      name := e.2.1
      description := e.2.2
      logo_url := none
      website_url := none
      is_active := true
      created_at := e.1 + 1 })

/-- The `products_data` of `seed_sample_data`, with the category/brand
foreign keys resolved against the ids the two earlier stages generated
(`nc`/`nb` rows pre-existing); prices in cents.  The products table is
empty when this runs, so the product ids are 1..8. -/
def seededProducts (nc nb : Nat) : List Product :=
  [{ id := 1
     name := "RTX 4060 Gaming Graphics Card"
     description := "Affordable gaming GPU with excellent 1080p performance. Features 8GB GDDR6 memory and ray tracing support."
     sku := "RTX4060-8G"
     price := 29999
     original_price := some 34999
     status := ProductStatus.active
     category_id := some (nc + 1)
     brand_id := some (nb + 1)
     specifications :=
       [("Memory", "8GB GDDR6"), ("Memory Interface", "128-bit"),
        ("Base Clock", "1830 MHz"), ("Boost Clock", "2460 MHz"),
        ("CUDA Cores", "3072")]
     features := ["Ray Tracing", "DLSS 3", "AV1 Encoding"]
     stock_quantity := 15
     min_stock_level := 5
     slug := "rtx-4060-gaming-graphics-card"
     meta_title := none
     meta_description := none
     created_at := 1
     updated_at := 1 },
   { id := 2
     name := "Ryzen 5 5600X Processor"
     description := "6-core, 12-thread processor perfect for gaming. Excellent price-to-performance ratio."
     sku := "R5-5600X"
     price := 19999
     original_price := some 22999
     status := ProductStatus.active
     category_id := some (nc + 2)
     brand_id := some (nb + 2)
     specifications :=
       [("Cores", "6"), ("Threads", "12"), ("Base Clock", "3.7 GHz"),
        ("Boost Clock", "4.6 GHz"), ("Cache", "32MB L3"), ("TDP", "65W")]
     features := ["PCIe 4.0", "DDR4 Support", "Unlocked Multiplier"]
     stock_quantity := 25
     min_stock_level := 5
     slug := "ryzen-5-5600x-processor"
     meta_title := none
     meta_description := none
     created_at := 2
     updated_at := 2 },
   { id := 3
     name := "16GB DDR4-3200 Gaming Memory Kit"
     description := "High-performance 16GB (2x8GB) DDR4 memory kit optimized for gaming."
     sku := "DDR4-3200-16G"
     price := 7999
     original_price := some 9999
     status := ProductStatus.active
     category_id := some (nc + 3)
     brand_id := some (nb + 4)
     specifications :=
       [("Capacity", "16GB (2x8GB)"), ("Speed", "DDR4-3200"),
        ("Timing", "16-18-18-36"), ("Voltage", "1.35V")]
     features := ["XMP 2.0", "Heat Spreaders", "Lifetime Warranty"]
     stock_quantity := 40
     min_stock_level := 5
     slug := "16gb-ddr4-3200-gaming-memory"
     meta_title := none
     meta_description := none
     created_at := 3
     updated_at := 3 },
   { id := 4
     name := "1TB NVMe SSD Gaming Drive"
     description := "Fast 1TB NVMe SSD perfect for storing games and reducing load times."
     sku := "NVME-1TB-GAME"
     price := 8999
     original_price := some 11999
     status := ProductStatus.active
     category_id := some (nc + 4)
     brand_id := some (nb + 7)
     specifications :=
       [("Capacity", "1TB"), ("Interface", "PCIe 3.0 x4"),
        ("Sequential Read", "2100 MB/s"), ("Sequential Write", "1700 MB/s"),
        ("Form Factor", "M.2 2280")]
     features := ["NVMe 1.3", "3D NAND", "5-Year Warranty"]
     stock_quantity := 30
     min_stock_level := 5
     slug := "1tb-nvme-ssd-gaming-drive"
     meta_title := none
     meta_description := none
     created_at := 4
     updated_at := 4 },
   { id := 5
     name := "B550 Gaming Motherboard"
     description := "AMD B550 chipset motherboard with PCIe 4.0 support and gaming features."
     sku := "B550-GAMING"
     price := 12999
     original_price := some 15999
     status := ProductStatus.active
     category_id := some (nc + 5)
     brand_id := some (nb + 5)
     specifications :=
       [("Socket", "AM4"), ("Chipset", "AMD B550"), ("Memory", "DDR4-4400 (O.C.)"),
        ("Expansion Slots", "PCIe 4.0 x16, PCIe 3.0 x16"), ("Form Factor", "ATX")]
     features := ["PCIe 4.0", "USB 3.2 Gen2", "WiFi 6", "RGB Lighting"]
     stock_quantity := 20
     min_stock_level := 5
     slug := "b550-gaming-motherboard"
     meta_title := none
     meta_description := none
     created_at := 5
     updated_at := 5 },
   { id := 6
     name := "650W 80+ Gold Gaming PSU"
     description := "Fully modular 650W power supply with 80+ Gold efficiency rating."
     sku := "PSU-650W-GOLD"
     price := 9999
     original_price := some 12999
     status := ProductStatus.active
     category_id := some (nc + 6)
     brand_id := some (nb + 4)
     specifications :=
       [("Wattage", "650W"), ("Efficiency", "80+ Gold"), ("Modular", "Fully Modular"),
        ("Fan Size", "140mm"), ("Dimensions", "150 x 86 x 160 mm")]
     features := ["Zero RPM Mode", "Japanese Capacitors", "10-Year Warranty"]
     stock_quantity := 18
     min_stock_level := 5
     slug := "650w-80plus-gold-gaming-psu"
     meta_title := none
     meta_description := none
     created_at := 6
     updated_at := 6 },
   { id := 7
     name := "Mid-Tower Gaming Case"
     description := "Stylish mid-tower case with tempered glass panel and RGB lighting."
     sku := "CASE-MIDTOWER"
     price := 7999
     original_price := none
     status := ProductStatus.active
     category_id := some (nc + 7)
     brand_id := some (nb + 6)
     specifications :=
       [("Form Factor", "Mid-Tower"), ("Material", "Steel, Tempered Glass"),
        ("Motherboard Support", "ATX, mATX, Mini-ITX"), ("GPU Clearance", "370mm"),
        ("CPU Cooler Height", "165mm")]
     features := ["Tempered Glass", "RGB Lighting", "Tool-free Installation"]
     stock_quantity := 12
     min_stock_level := 5
     slug := "mid-tower-gaming-case"
     meta_title := none
     meta_description := none
     created_at := 7
     updated_at := 7 },
   { id := 8
     name := "Mechanical Gaming Keyboard"
     description := "RGB mechanical gaming keyboard with Cherry MX switches."
     sku := "KB-MECH-RGB"
     price := 8999
     original_price := some 10999
     status := ProductStatus.active
     category_id := some (nc + 8)
     brand_id := some (nb + 4)
     specifications :=
       [("Switch Type", "Cherry MX Red"), ("Backlighting", "RGB per-key"),
        ("Layout", "Full-size"), ("Connection", "USB-C"), ("Polling Rate", "1000Hz")]
     features := ["N-Key Rollover", "Media Controls", "Software Customization"]
     stock_quantity := 35
     min_stock_level := 5
     slug := "mechanical-gaming-keyboard"
     meta_title := none
     meta_description := none
     created_at := 8
     updated_at := 8 }]

/-- The `sample_images` of `seed_sample_data`: (image_url, alt_text) for the
products with ids 1..8, in order. -/
def seedImageData : List (String × String) :=
  [("https://images.unsplash.com/photo-1591488320449-011701bb6704?w=400", "RTX 4060 Graphics Card"),
   ("https://images.unsplash.com/photo-1555617981-dac3880eac6e?w=400", "AMD Ryzen Processor"),
   ("https://images.unsplash.com/photo-1562976540-1502c2145186?w=400", "DDR4 Memory Modules"),
   ("https://images.unsplash.com/photo-1597872200969-2b65d56bd16b?w=400", "NVMe SSD Drive"),
   ("https://images.unsplash.com/photo-1518717758536-85ae29035b6d?w=400", "Gaming Motherboard"),
   ("https://images.unsplash.com/photo-1609694740799-82d2c0b2fcd8?w=400", "Power Supply Unit"),
   ("https://images.unsplash.com/photo-1587202372634-32705e3bf49c?w=400", "Gaming PC Case"),
   ("https://images.unsplash.com/photo-1541140532154-b024d705b90a?w=400", "Mechanical Gaming Keyboard")]

/-- The images the seeder inserts into a table currently holding `n` rows:
the i-th one is the primary image of the product with id `i + 1`. -/
def seededImages (n : Nat) : List ProductImage :=
  seedImageData.enum.map (fun e =>
    { id := n + e.1 + 1
      product_id := e.1 + 1
      image_url := e.2.1
      alt_text := e.2.2
      is_primary := true
      display_order := 0
      created_at := e.1 + 1 })

/-- Embedding of `DataSeederService.seed_sample_data`: no-op when any product row exists,
otherwise the staged inserts described above. -/
def seedSampleData (db : DB) : DB :=
  if db.products.isEmpty then
    { categories := db.categories ++ seededCategories db.categories.length
      brands := db.brands ++ seededBrands db.brands.length
      products := db.products ++ seededProducts db.categories.length db.brands.length
      images := db.images ++ seededImages db.images.length }
  else db

/-- The empty store. -/
def emptyDB : DB := { categories := [], brands := [], products := [], images := [] }

/-! ## Concrete fixtures used to instantiate the general statements -/

/-- A single active, in-stock product ($50.00, stock 3). -/
def sampleProduct : Product :=
  { id := 1
    name := "Sample Gadget"
    description := "A plain sample gadget."
    sku := "SAMPLE-1"
    price := 5000
    original_price := none
    status := ProductStatus.active
    category_id := none
    brand_id := none
    specifications := []
    features := []
    stock_quantity := 3
    min_stock_level := 5
    slug := "sample-gadget"
    meta_title := none
    meta_description := none
    created_at := 1
    updated_at := 1 }

/-- A store holding just `sampleProduct`. -/
def sampleDB : DB := { categories := [], brands := [], products := [sampleProduct], images := [] }

/-- A filter asking for price ≥ $10.00 and stock on hand. -/
def sampleFilter : ProductFilter := { min_price := some 1000, in_stock_only := true }

/-- An image of `sampleProduct` that is not flagged primary. -/
def nonPrimaryImage : ProductImage :=
  { id := 1
    product_id := 1
    image_url := "https://example.com/first.jpg"
    alt_text := "first image"
    is_primary := false
    display_order := 0
    created_at := 1 }

/-- A store where the only product has exactly one image, not primary. -/
def imageDB : DB :=
  { categories := [], brands := [], products := [sampleProduct], images := [nonPrimaryImage] }

/-- Copy of `sampleProduct` marked discontinued. -/
def discontinuedProduct : Product := { sampleProduct with status := ProductStatus.discontinued }

/-- A non-empty store whose only product is not active. -/
def discontinuedDB : DB :=
  { categories := [], brands := [], products := [discontinuedProduct], images := [] }

/-- Containment: `q` appears verbatim inside `s`. -/
def isSubstr (q s : List Char) : Prop := ∃ a b, s = a ++ q ++ b

/-- Characters with no special meaning in a SQL `LIKE` pattern. -/
def plainChar (c : Char) : Bool := !(c == '%' || c == '_' || c == '\\')

/-! ## Helper lemmas about the embedding -/

theorem perm_insertDesc (p : Product) (l : List Product) :
    List.Perm (insertDesc p l) (p :: l) := by
  induction l with
  | nil => simp [insertDesc]
  | cons q qs ih =>
    simp only [insertDesc]
    split
    · exact ((ih.cons q).trans (List.Perm.swap p q qs))
    · rfl

theorem perm_sortByCreatedDesc (l : List Product) : List.Perm (sortByCreatedDesc l) l := by
  induction l with
  | nil => rfl
  | cons p ps ih => exact (perm_insertDesc p (sortByCreatedDesc ps)).trans (ih.cons p)

theorem mem_sortByCreatedDesc {p : Product} {l : List Product} :
    p ∈ sortByCreatedDesc l ↔ p ∈ l :=
  (perm_sortByCreatedDesc l).mem_iff

/-- Every summary `get_products` returns is the projection of a stored
product that passes every clause of the filter. -/
theorem mem_getProducts {db : DB} {f : Option ProductFilter} {L O : Nat} {s : ProductSummary}
    (h : s ∈ getProducts db f L O) :
    ∃ p ∈ db.products, (∀ flt, f = some flt → matchesFilter flt p = true) ∧ s = mkSummary db p := by
  cases f with
  | none =>
    unfold getProducts at h
    obtain ⟨p, hp, hs⟩ := List.mem_map.mp h
    have hp2 := List.mem_of_mem_drop (List.mem_of_mem_take hp)
    rw [mem_sortByCreatedDesc] at hp2
    refine ⟨p, hp2, ?_, hs.symm⟩
    intro flt hflt
    cases hflt
  | some flt =>
    unfold getProducts at h
    obtain ⟨p, hp, hs⟩ := List.mem_map.mp h
    have hp2 := List.mem_of_mem_drop (List.mem_of_mem_take hp)
    rw [mem_sortByCreatedDesc] at hp2
    obtain ⟨hmem, hmatch⟩ := List.mem_filter.mp hp2
    refine ⟨p, hmem, ?_, hs.symm⟩
    intro flt2 hflt2
    cases hflt2
    exact hmatch

/-! ## C1: returned summaries satisfy every present filter clause -/

/-- C1: for every filter, limit and offset, each `ProductSummary` that
`ProductService.get_products` returns satisfies all predicates present in
the filter: its price is ≥ `min_price` and ≤ `max_price` when those are
set, its stock is positive when `in_stock_only` holds, its status equals
the filtered status when set, and the stored product it projects carries
the filtered `category_id`/`brand_id` when those are set. -/
theorem getProducts_satisfy_filter (db : DB) (f : ProductFilter) (L O : Nat)
    (s : ProductSummary) (h : s ∈ getProducts db (some f) L O) :
    (∀ m, f.min_price = some m → m ≤ s.price) ∧
    (∀ m, f.max_price = some m → s.price ≤ m) ∧
    (f.in_stock_only = true → 0 < s.stock_quantity) ∧
    (∀ st, f.status = some st → s.status = st) ∧
    (∀ c, f.category_id = some c →
      ∃ p ∈ db.products, s = mkSummary db p ∧ p.category_id = some c) ∧
    (∀ b, f.brand_id = some b →
      ∃ p ∈ db.products, s = mkSummary db p ∧ p.brand_id = some b) := by
  obtain ⟨p, hpmem, hflt, hs⟩ := mem_getProducts h
  have hmatch := hflt f rfl
  simp only [matchesFilter, Bool.and_eq_true] at hmatch
  obtain ⟨⟨⟨⟨⟨⟨hcat, hbrand⟩, hmin⟩, hmax⟩, hstat⟩, hstock⟩, hsearch⟩ := hmatch
  subst hs
  refine ⟨?_, ?_, ?_, ?_, ?_, ?_⟩
  · intro m hm
    rw [hm] at hmin
    simpa [mkSummary] using hmin
  · intro m hm
    rw [hm] at hmax
    simpa [mkSummary] using hmax
  · intro hin
    rw [hin] at hstock
    simpa [mkSummary] using hstock
  · intro st hst
    rw [hst] at hstat
    simpa [mkSummary] using hstat
  · intro c hc
    rw [hc] at hcat
    exact ⟨p, hpmem, rfl, by simpa using hcat⟩
  · intro b hb
    rw [hb] at hbrand
    exact ⟨p, hpmem, rfl, by simpa using hbrand⟩

/-- Witness for C1 at a concrete store and filter. -/
theorem getProducts_satisfy_filter_witness :
    mkSummary sampleDB sampleProduct ∈ getProducts sampleDB (some sampleFilter) 20 0 ∧
    (1000 : Int) ≤ (mkSummary sampleDB sampleProduct).price ∧
    0 < (mkSummary sampleDB sampleProduct).stock_quantity :=
  ⟨by decide,
   (getProducts_satisfy_filter sampleDB sampleFilter 20 0 (mkSummary sampleDB sampleProduct)
      (by decide)).1 1000 rfl,
   (getProducts_satisfy_filter sampleDB sampleFilter 20 0 (mkSummary sampleDB sampleProduct)
      (by decide)).2.2.1 rfl⟩

/-! ## C2: a product whose images are all non-primary -/

/-- C2 counterexample: in `imageDB` the only product has exactly one image,
not flagged primary, with URL `https://example.com/first.jpg`; the summary
`get_products` builds for it carries `primary_image_url = none`, not the
URL of the first image as the claim predicts. -/
theorem primary_image_fallback_cex :
    (getProducts imageDB none 20 0).map (fun s => (s.id, s.primary_image_url)) = [(1, none)] ∧
    imageDB.images.map (fun i => (i.product_id, i.image_url, i.is_primary)) =
      [(1, "https://example.com/first.jpg", false)] := by
  constructor
  · rfl
  · rfl

/-- C2 amended: when no image of a product is flagged primary (in
particular when it has images but no primary one), the summary
`get_products` builds for it has `primary_image_url = none`; the service
performs no first-image fallback. -/
theorem no_primary_image_yields_none (db : DB) (f : Option ProductFilter) (L O : Nat)
    (s : ProductSummary) (h : s ∈ getProducts db f L O)
    (himg : ∀ img ∈ db.images, img.product_id = s.id → img.is_primary = false) :
    s.primary_image_url = none := by
  obtain ⟨p, -, -, hs⟩ := mem_getProducts h
  subst hs
  have hfind : db.images.find? (fun img => img.product_id == p.id && img.is_primary) = none := by
    rw [List.find?_eq_none]
    intro img hi
    have hflag := himg img hi
    by_cases hpid : img.product_id = p.id
    · simp [hpid, hflag hpid]
    · simp [hpid]
  simp [mkSummary, hfind]

/-- Witness for C2 at the concrete store `imageDB`. -/
theorem no_primary_image_yields_none_witness :
    (mkSummary imageDB sampleProduct).primary_image_url = none :=
  no_primary_image_yields_none imageDB none 20 0 (mkSummary imageDB sampleProduct)
    (by decide) (by decide)

/-! ## C9: lookups by absent id -/

/-- C9: looking up a product, category or brand by an id no stored row
carries yields `none`; the primary-key lookups are total and never fail. -/
theorem get_by_id_absent (db : DB) (i j k : Nat)
    (hp : ∀ p ∈ db.products, p.id ≠ i)
    (hc : ∀ c ∈ db.categories, c.id ≠ j)
    (hb : ∀ b ∈ db.brands, b.id ≠ k) :
    getProductById db i = none ∧ getCategoryById db j = none ∧ getBrandById db k = none := by
  refine ⟨?_, ?_, ?_⟩
  · rw [getProductById, List.find?_eq_none]
    intro p hpm
    simpa using hp p hpm
  · rw [getCategoryById, List.find?_eq_none]
    intro c hcm
    simpa using hc c hcm
  · rw [getBrandById, List.find?_eq_none]
    intro b hbm
    simpa using hb b hbm

/-- Witness for C9 at a concrete store and absent id. -/
theorem get_by_id_absent_witness :
    getProductById sampleDB 99 = none ∧ getCategoryById sampleDB 99 = none ∧
      getBrandById sampleDB 99 = none :=
  get_by_id_absent sampleDB 99 99 99 (by decide) (by decide) (by decide)

/-! ## C10: product counts consider only ACTIVE products -/

theorem length_filter_and_split {α : Type} (a b : α → Bool) (l : List α) :
    (l.filter (fun x => a x && b x)).length + (l.filter (fun x => a x && !(b x))).length
      = (l.filter a).length := by
  induction l with
  | nil => rfl
  | cons x xs ih =>
    cases hax : a x <;> cases hbx : b x <;>
      simp [List.filter_cons, hax, hbx] <;> omega

/-- C10: the `product_count` the category/brand listings attach to each
entity is the number of products of that entity whose status is `ACTIVE`;
adding the non-active products of the entity recovers its total product count,
so `out_of_stock` and `discontinued` products are excluded. -/
theorem product_counts_active_only (db : DB) :
    (∀ pr ∈ categoriesWithProductCounts db,
      pr.2 = (db.products.filter
              (fun p => p.category_id == some pr.1.id && p.status == ProductStatus.active)).length ∧
      pr.2 + (db.products.filter
              (fun p => p.category_id == some pr.1.id &&
                        !(p.status == ProductStatus.active))).length
        = (db.products.filter (fun p => p.category_id == some pr.1.id)).length) ∧
    (∀ pr ∈ brandsWithProductCounts db,
      pr.2 = (db.products.filter
              (fun p => p.brand_id == some pr.1.id && p.status == ProductStatus.active)).length ∧
      pr.2 + (db.products.filter
              (fun p => p.brand_id == some pr.1.id &&
                        !(p.status == ProductStatus.active))).length
        = (db.products.filter (fun p => p.brand_id == some pr.1.id)).length) := by
  constructor
  · intro pr hpr
    obtain ⟨c, -, hc⟩ := List.mem_map.mp hpr
    subst hc
    exact ⟨rfl, length_filter_and_split (fun p => p.category_id == some c.id)
      (fun p => p.status == ProductStatus.active) db.products⟩
  · intro pr hpr
    obtain ⟨b, -, hb⟩ := List.mem_map.mp hpr
    subst hb
    exact ⟨rfl, length_filter_and_split (fun p => p.brand_id == some b.id)
      (fun p => p.status == ProductStatus.active) db.products⟩

/-- Witness for C10 on a seeded store: Corsair (brand id 4) counts three
active products. -/
theorem product_counts_active_only_witness :
    (4, 3) ∈ (brandsWithProductCounts (seedSampleData emptyDB)).map (fun pr => (pr.1.id, pr.2)) ∧
    ((3 : Nat) =
      ((seedSampleData emptyDB).products.filter
        (fun p => p.brand_id == some 4 && p.status == ProductStatus.active)).length ∧
      3 + ((seedSampleData emptyDB).products.filter
        (fun p => p.brand_id == some 4 && !(p.status == ProductStatus.active))).length
        = ((seedSampleData emptyDB).products.filter (fun p => p.brand_id == some 4)).length) := by
  constructor
  · decide
  · have hmem : ((⟨4, "Corsair", "Gaming hardware manufacturer", none, none, true, 4⟩ : Brand), 3) ∈
        brandsWithProductCounts (seedSampleData emptyDB) := by decide
    exact (product_counts_active_only (seedSampleData emptyDB)).2 _ hmem

/-! ## C5: the seeder is idempotent -/

theorem seed_products_nonempty (db : DB) : (seedSampleData db).products ≠ [] := by
  unfold seedSampleData
  split
  · simp [seededProducts]
  · rename_i h
    simpa [List.isEmpty_iff] using h

/-- C5: seeding twice leaves the same number of product rows as seeding
once, and on a store already holding any product row the seeder changes
nothing at all. -/
theorem seed_idempotent :
    (∀ db : DB, (seedSampleData (seedSampleData db)).products.length
        = (seedSampleData db).products.length) ∧
    (∀ db : DB, db.products ≠ [] → seedSampleData db = db) := by
  have hnoop : ∀ db : DB, db.products ≠ [] → seedSampleData db = db := by
    intro db h
    unfold seedSampleData
    rw [if_neg]
    simp [h]
  exact ⟨fun db => by rw [hnoop (seedSampleData db) (seed_products_nonempty db)], hnoop⟩

/-- Witness for C5: seeding the empty store twice and a no-op on a store
that already has a product. -/
theorem seed_idempotent_witness :
    (seedSampleData (seedSampleData emptyDB)).products.length
        = (seedSampleData emptyDB).products.length ∧
    seedSampleData sampleDB = sampleDB :=
  ⟨seed_idempotent.1 emptyDB, seed_idempotent.2 sampleDB (by decide)⟩

/-! ## C3: price range bounds -/

theorem foldl_min_le_init (a : Int) (l : List Int) : l.foldl min a ≤ a := by
  induction l generalizing a with
  | nil => exact le_refl a
  | cons x xs ih => exact le_trans (ih (min a x)) (min_le_left a x)

theorem foldl_min_le_mem (a x : Int) (l : List Int) (hx : x ∈ l) : l.foldl min a ≤ x := by
  induction l generalizing a with
  | nil => cases hx
  | cons y ys ih =>
    rcases List.mem_cons.mp hx with h | h
    · subst h
      exact le_trans (foldl_min_le_init (min a x) ys) (min_le_right a x)
    · exact ih (min a y) h

theorem foldl_min_mem (a : Int) (l : List Int) : l.foldl min a = a ∨ l.foldl min a ∈ l := by
  induction l generalizing a with
  | nil => exact Or.inl rfl
  | cons x xs ih =>
    rcases ih (min a x) with h | h
    · rcases min_choice a x with h2 | h2
      · exact Or.inl (by simpa [h2] using h)
      · exact Or.inr (List.mem_cons.mpr (Or.inl (by simpa [h2] using h)))
    · exact Or.inr (List.mem_cons.mpr (Or.inr h))

theorem le_foldl_max_init (a : Int) (l : List Int) : a ≤ l.foldl max a := by
  induction l generalizing a with
  | nil => exact le_refl a
  | cons x xs ih => exact le_trans (le_max_left a x) (ih (max a x))

theorem mem_le_foldl_max (a x : Int) (l : List Int) (hx : x ∈ l) : x ≤ l.foldl max a := by
  induction l generalizing a with
  | nil => cases hx
  | cons y ys ih =>
    rcases List.mem_cons.mp hx with h | h
    · subst h
      exact le_trans (le_max_right a x) (le_foldl_max_init (max a x) ys)
    · exact ih (max a y) h

theorem foldl_max_mem (a : Int) (l : List Int) : l.foldl max a = a ∨ l.foldl max a ∈ l := by
  induction l generalizing a with
  | nil => exact Or.inl rfl
  | cons x xs ih =>
    rcases ih (max a x) with h | h
    · rcases max_choice a x with h2 | h2
      · exact Or.inl (by simpa [h2] using h)
      · exact Or.inr (List.mem_cons.mpr (Or.inl (by simpa [h2] using h)))
    · exact Or.inr (List.mem_cons.mpr (Or.inr h))

theorem getPriceRange_eq_of_filter (db : DB) (q : Product) (rest : List Product)
    (hl : db.products.filter (fun p => p.status == ProductStatus.active) = q :: rest) :
    getPriceRange db = ((rest.map (fun p => p.price)).foldl min q.price,
                        (rest.map (fun p => p.price)).foldl max q.price) := by
  unfold getPriceRange
  rw [hl]
  rfl

/-- C3 counterexample: `discontinuedDB` is a non-empty catalog (one
discontinued product at $50.00), yet `get_price_range` returns the
fallback `(0, 1000.00)`, and neither bound is the price of any stored product. -/
theorem price_range_fallback_cex :
    discontinuedDB.products ≠ [] ∧
    getPriceRange discontinuedDB = (0, 100000) ∧
    (∀ p ∈ discontinuedDB.products, p.price ≠ 100000 ∧ p.price ≠ 0) := by
  refine ⟨by decide, rfl, by decide⟩

/-- C3 amended: the fallback `(0, 1000.00)` is returned whenever no ACTIVE
product exists — in particular on the empty catalog; as soon as some
active product exists, the result satisfies min ≤ max and both bounds are
prices of stored products. -/
theorem price_range_spec (db : DB) :
    (db.products = [] → getPriceRange db = (0, 100000)) ∧
    ((∀ p ∈ db.products, p.status ≠ ProductStatus.active) → getPriceRange db = (0, 100000)) ∧
    ((∃ p ∈ db.products, p.status = ProductStatus.active) →
      (getPriceRange db).1 ≤ (getPriceRange db).2 ∧
      (∃ p ∈ db.products, p.price = (getPriceRange db).1) ∧
      (∃ p ∈ db.products, p.price = (getPriceRange db).2)) := by
  refine ⟨?_, ?_, ?_⟩
  · intro h
    unfold getPriceRange
    rw [h]
    rfl
  · intro h
    have hfl : db.products.filter (fun p => p.status == ProductStatus.active) = [] := by
      rw [List.filter_eq_nil_iff]
      intro p hp
      simpa using h p hp
    unfold getPriceRange
    rw [hfl]
    rfl
  · rintro ⟨p0, hp0, hst⟩
    have hmem : p0 ∈ db.products.filter (fun p => p.status == ProductStatus.active) :=
      List.mem_filter.mpr ⟨hp0, by simp [hst]⟩
    cases hfl : db.products.filter (fun p => p.status == ProductStatus.active) with
    | nil => rw [hfl] at hmem; cases hmem
    | cons q rest =>
      have hq : q ∈ db.products :=
        (List.mem_filter.mp (hfl ▸ List.mem_cons_self q rest)).1
      have hrest : ∀ r ∈ rest, r ∈ db.products := by
        intro r hr
        exact (List.mem_filter.mp (hfl ▸ List.mem_cons_of_mem q hr)).1
      rw [getPriceRange_eq_of_filter db q rest hfl]
      refine ⟨?_, ?_, ?_⟩
      · exact le_trans (foldl_min_le_init q.price (rest.map (fun p => p.price)))
          (le_foldl_max_init q.price (rest.map (fun p => p.price)))
      · rcases foldl_min_mem q.price (rest.map (fun p => p.price)) with h | h
        · exact ⟨q, hq, h.symm⟩
        · obtain ⟨r, hr, hrp⟩ := List.mem_map.mp h
          exact ⟨r, hrest r hr, hrp⟩
      · rcases foldl_max_mem q.price (rest.map (fun p => p.price)) with h | h
        · exact ⟨q, hq, h.symm⟩
        · obtain ⟨r, hr, hrp⟩ := List.mem_map.mp h
          exact ⟨r, hrest r hr, hrp⟩

/-- Witness for C3 on concrete stores: the empty catalog falls back, and
on a one-active-product catalog both bounds equal the price of that product. -/
theorem price_range_spec_witness :
    getPriceRange emptyDB = (0, 100000) ∧
    ((getPriceRange sampleDB).1 ≤ (getPriceRange sampleDB).2 ∧
      (∃ p ∈ sampleDB.products, p.price = (getPriceRange sampleDB).1) ∧
      (∃ p ∈ sampleDB.products, p.price = (getPriceRange sampleDB).2)) :=
  ⟨(price_range_spec emptyDB).1 rfl,
   (price_range_spec sampleDB).2.2 ⟨sampleProduct, by decide, rfl⟩⟩

/-! ## C4: the seeded catalog filtered to in-stock, ≤ $200 -/

/-- C4 counterexample: the seeded CPU "Ryzen 5 5600X Processor" costs
$199.99 ≤ $200.00 and has stock 25, so `get_products` with
`in_stock_only=true, max_price=200.00` returns it — the claim wrongly
lists it among the excluded products. -/
theorem seeded_filter_cpu_cex :
    ∃ s ∈ getProducts (seedSampleData emptyDB)
        (some { in_stock_only := true, max_price := some 20000 }) 20 0,
      s.name = "Ryzen 5 5600X Processor" ∧ s.price = 19999 ∧ 0 < s.stock_quantity := by
  decide

/-- C4 amended: after seeding the empty store, filtering by
`in_stock_only=true, max_price=200.00` returns exactly the CPU ($199.99),
the DDR4 memory kit, the SSD, the motherboard, the PSU, the case and the
keyboard; only the GPU ($299.99) is excluded. -/
theorem seeded_filter_result :
    List.Perm
      ((getProducts (seedSampleData emptyDB)
          (some { in_stock_only := true, max_price := some 20000 }) 20 0).map (fun s => s.name))
      ["Ryzen 5 5600X Processor", "16GB DDR4-3200 Gaming Memory Kit",
       "1TB NVMe SSD Gaming Drive", "B550 Gaming Motherboard",
       "650W 80+ Gold Gaming PSU", "Mid-Tower Gaming Case",
       "Mechanical Gaming Keyboard"] := by
  decide

/-! ## C6: what one seeder run inserts -/

/-- C6 counterexample: the seeded products do not reference the brands by
matching list position — the brand references of the product list, in order,
are brands 1, 2, 4, 7, 5, 4, 6, 4 (NVIDIA, AMD, Corsair, Kingston, ASUS,
Corsair, MSI, Corsair), not brands 1..8; e.g. the third product (the
Corsair memory kit) references brand 4, not the third brand (Intel). -/
theorem seed_brand_position_cex :
    (seedSampleData emptyDB).categories.length = 8 ∧
    (seedSampleData emptyDB).brands.length = 8 ∧
    (seedSampleData emptyDB).products.length = 8 ∧
    (seedSampleData emptyDB).products.map (fun p => p.brand_id) ≠
      (seedSampleData emptyDB).brands.map (fun b => some b.id) ∧
    ((seedSampleData emptyDB).products.map (fun p => p.brand_id)).get? 2 = some (some 4) ∧
    ((seedSampleData emptyDB).brands.map (fun b => some b.id)).get? 2 = some (some 3) := by
  decide

/-- C6 amended: on a store with no product rows the seeder adds exactly 8
categories, 8 brands, 8 products and 8 images; the i-th product references
the i-th inserted category by list position, while the brand references
follow the fixed position list 0, 1, 3, 6, 4, 3, 5, 3 into the inserted
brands; each product gets exactly one image, flagged `is_primary`. -/
theorem seed_inserts_eight (db : DB) (h : db.products = []) :
    (seedSampleData db).categories = db.categories ++ seededCategories db.categories.length ∧
    (seededCategories db.categories.length).length = 8 ∧
    (seedSampleData db).brands = db.brands ++ seededBrands db.brands.length ∧
    (seededBrands db.brands.length).length = 8 ∧
    (seedSampleData db).products.length = 8 ∧
    List.Forall₂ (fun (p : Product) (c : Category) => p.category_id = some c.id)
      (seedSampleData db).products (seededCategories db.categories.length) ∧
    (seedSampleData db).products.map (fun p => p.brand_id) =
      [0, 1, 3, 6, 4, 3, 5, 3].map (fun i => some (db.brands.length + i + 1)) ∧
    (seedSampleData db).images = db.images ++ seededImages db.images.length ∧
    (seededImages db.images.length).length = 8 ∧
    List.Forall₂ (fun (img : ProductImage) (p : Product) =>
        img.product_id = p.id ∧ img.is_primary = true)
      (seededImages db.images.length) (seedSampleData db).products := by
  have hs : seedSampleData db =
      { categories := db.categories ++ seededCategories db.categories.length
        brands := db.brands ++ seededBrands db.brands.length
        products := seededProducts db.categories.length db.brands.length
        images := db.images ++ seededImages db.images.length } := by
    unfold seedSampleData
    rw [h]
    rfl
  rw [hs]
  refine ⟨rfl, rfl, rfl, rfl, rfl, ?_, rfl, rfl, rfl, ?_⟩
  · repeat constructor
  · repeat constructor

/-- Witness for C6 at the empty store. -/
theorem seed_inserts_eight_witness :
    (seedSampleData emptyDB).products.length = 8 ∧
    (seedSampleData emptyDB).products.map (fun p => p.brand_id) =
      [0, 1, 3, 6, 4, 3, 5, 3].map (fun i => some (emptyDB.brands.length + i + 1)) :=
  ⟨(seed_inserts_eight emptyDB rfl).2.2.2.2.1,
   (seed_inserts_eight emptyDB rfl).2.2.2.2.2.2.1⟩

/-! ## C7: non-overlapping pages are disjoint -/

theorem window_key_ne {α β : Type} (key : α → β) {l : List α} {L O1 O2 : Nat}
    (h : (l.map key).Nodup) (hw : O1 + L ≤ O2)
    {x y : α} (hx : x ∈ (l.drop O1).take L) (hy : y ∈ (l.drop O2).take L) :
    key x ≠ key y := by
  have hx2 : x ∈ l.take (O1 + L) := by
    rw [List.take_drop] at hx
    exact List.mem_of_mem_drop hx
  have hy2 : y ∈ l.drop (O1 + L) := by
    have hy3 : y ∈ l.drop O2 := List.mem_of_mem_take hy
    obtain ⟨k, rfl⟩ := Nat.exists_eq_add_of_le hw
    rw [← List.drop_drop] at hy3
    exact List.mem_of_mem_drop hy3
  have hsplit : (l.take (O1 + L)).map key ++ (l.drop (O1 + L)).map key = l.map key := by
    rw [← List.map_append, List.take_append_drop]
  rw [← hsplit] at h
  have hdisj := (List.nodup_append.mp h).2.2
  intro he
  exact hdisj (List.mem_map_of_mem key hx2) (he ▸ List.mem_map_of_mem key hy2)

/-- C7: with a fixed filter and store whose product ids are pairwise
distinct, two pages of the same limit taken at offsets whose windows do not
overlap share no product id. -/
theorem pagination_disjoint (db : DB) (f : Option ProductFilter) (L O1 O2 : Nat)
    (hids : (db.products.map (fun p => p.id)).Nodup)
    (hw : O1 + L ≤ O2 ∨ O2 + L ≤ O1) :
    ∀ s1 ∈ getProducts db f L O1, ∀ s2 ∈ getProducts db f L O2, s1.id ≠ s2.id := by
  intro s1 h1 s2 h2
  cases f with
  | none =>
    unfold getProducts at h1 h2
    obtain ⟨p1, hp1, hs1⟩ := List.mem_map.mp h1
    obtain ⟨p2, hp2, hs2⟩ := List.mem_map.mp h2
    have hno : ((sortByCreatedDesc db.products).map (fun p => p.id)).Nodup :=
      (((perm_sortByCreatedDesc db.products).map (fun p => p.id)).nodup_iff).mpr hids
    subst hs1
    subst hs2
    show p1.id ≠ p2.id
    rcases hw with hw | hw
    · exact window_key_ne (fun p => p.id) hno hw hp1 hp2
    · exact (window_key_ne (fun p => p.id) hno hw hp2 hp1).symm
  | some flt =>
    unfold getProducts at h1 h2
    obtain ⟨p1, hp1, hs1⟩ := List.mem_map.mp h1
    obtain ⟨p2, hp2, hs2⟩ := List.mem_map.mp h2
    have hsub : ((db.products.filter (matchesFilter flt)).map (fun p => p.id)).Sublist
        (db.products.map (fun p => p.id)) :=
      (List.filter_sublist db.products).map (fun p => p.id)
    have hno : ((sortByCreatedDesc (db.products.filter (matchesFilter flt))).map
        (fun p => p.id)).Nodup :=
      (((perm_sortByCreatedDesc _).map (fun p => p.id)).nodup_iff).mpr (hids.sublist hsub)
    subst hs1
    subst hs2
    show p1.id ≠ p2.id
    rcases hw with hw | hw
    · exact window_key_ne (fun p => p.id) hno hw hp1 hp2
    · exact (window_key_ne (fun p => p.id) hno hw hp2 hp1).symm

/-- Witness for C7: on the seeded store, an element of the page at offset 0
and one of the page at offset 2 (limit 2) differ in id. -/
theorem pagination_disjoint_witness :
    (mkSummary (seedSampleData emptyDB)
        ((seedSampleData emptyDB).products.get ⟨7, by decide⟩)).id ≠
      (mkSummary (seedSampleData emptyDB)
        ((seedSampleData emptyDB).products.get ⟨5, by decide⟩)).id :=
  pagination_disjoint (seedSampleData emptyDB) none 2 0 2 (by decide) (Or.inl (by decide))
    _ (by decide) _ (by decide)

/-! ## C8: search results contain the query -/

theorem isSubstr_subset {q s : List Char} (h : isSubstr q s) : ∀ c ∈ q, c ∈ s := by
  obtain ⟨a, b, rfl⟩ := h
  intro c hc
  simp [List.mem_append, hc]

theorem plain_ofNat_shift (m : Nat) (h1 : 65 ≤ m) (h2 : m ≤ 90) :
    plainChar (Char.ofNat (m + 32)) = true := by
  interval_cases m <;> decide

theorem lowerChar_plain {c : Char} (h : plainChar c = true) : plainChar (lowerChar c) = true := by
  unfold lowerChar
  split
  · rename_i hc
    exact plain_ofNat_shift c.toNat hc.1 hc.2
  · exact h

theorem lowerL_all_plain {q : List Char} (h : q.all plainChar = true) :
    (lowerL q).all plainChar = true := by
  rw [List.all_eq_true] at h ⊢
  intro c hc
  obtain ⟨d, hd, rfl⟩ := List.mem_map.mp hc
  exact lowerChar_plain (h d hd)

theorem likeMatch_cons_eq (c : Char) (ps s : List Char) :
    likeMatch (c :: ps) s =
      (if c = '%' then s.tails.any (fun t => likeMatch ps t)
       else if c = '_' then !s.isEmpty && likeMatch ps s.tail
       else if c = '\\' then
         (match ps with
          | [] => false
          | c2 :: ps2 => headIs c2 s && likeMatch ps2 s.tail)
       else headIs c s && likeMatch ps s.tail) := by
  rw [likeMatch.eq_def]

theorem likeMatch_pct {ps s : List Char} :
    likeMatch ('%' :: ps) s = true ↔ ∃ t, t <:+ s ∧ likeMatch ps t = true := by
  rw [likeMatch_cons_eq, if_pos rfl]
  simp only [List.any_eq_true, List.mem_tails]

theorem likeMatch_plain_cons {c : Char} (ps s : List Char)
    (h1 : ¬c = '%') (h2 : ¬c = '_') (h3 : ¬c = '\\') :
    likeMatch (c :: ps) s = (headIs c s && likeMatch ps s.tail) := by
  rw [likeMatch_cons_eq, if_neg h1, if_neg h2, if_neg h3]

theorem likeMatch_plain_pct {q : List Char} (hq : q.all plainChar = true) :
    ∀ s, likeMatch (q ++ ['%']) s = true ↔ ∃ b, s = q ++ b := by
  induction q with
  | nil =>
    intro s
    simp only [List.nil_append]
    constructor
    · intro _
      exact ⟨s, rfl⟩
    · intro _
      rw [likeMatch_cons_eq, if_pos rfl]
      exact List.any_eq_true.mpr ⟨[], (List.mem_tails [] s).mpr List.nil_suffix, rfl⟩
  | cons c q2 ih =>
    rw [List.all_cons, Bool.and_eq_true] at hq
    obtain ⟨hc, hq2⟩ := hq
    obtain ⟨⟨h1, h2⟩, h3⟩ : (¬c = '%' ∧ ¬c = '_') ∧ ¬c = '\\' := by
      simpa [plainChar] using hc
    intro s
    rw [List.cons_append, likeMatch_plain_cons _ _ h1 h2 h3]
    cases s with
    | nil =>
      simp [headIs]
    | cons d t =>
      rw [show headIs c (d :: t) = decide (c = d) from rfl, Bool.and_eq_true, decide_eq_true_iff]
      constructor
      · rintro ⟨rfl, hm⟩
        obtain ⟨b, rfl⟩ := (ih hq2 t).mp hm
        exact ⟨b, rfl⟩
      · rintro ⟨b, hb⟩
        injection hb with hb1 hb2
        exact ⟨hb1.symm, (ih hq2 t).mpr ⟨b, hb2⟩⟩

theorem likeMatch_substr {q : List Char} (hq : q.all plainChar = true) (s : List Char) :
    likeMatch ('%' :: (q ++ ['%'])) s = true ↔ isSubstr q s := by
  rw [likeMatch_pct]
  constructor
  · rintro ⟨t, ⟨a, rfl⟩, hm⟩
    obtain ⟨b, rfl⟩ := (likeMatch_plain_pct hq t).mp hm
    exact ⟨a, b, by rw [List.append_assoc]⟩
  · rintro ⟨a, b, rfl⟩
    exact ⟨q ++ b, ⟨a, by rw [List.append_assoc]⟩, (likeMatch_plain_pct hq _).mpr ⟨b, rfl⟩⟩

theorem pattern_data (q : String) : ("%" ++ q ++ "%").data = '%' :: (q.data ++ ['%']) := by
  cases q
  rfl

theorem lowerL_pattern (x : List Char) :
    lowerL ('%' :: (x ++ ['%'])) = '%' :: (lowerL x ++ ['%']) := by
  simp [lowerL, lowerChar]

/-- Matching `ILIKE` with the percent-wrapped pattern, for wildcard-free `q`, is exactly
case-insensitive substring containment. -/
theorem ilikeMatch_substr {q : String} (hq : q.data.all plainChar = true) (s : String) :
    ilikeMatch ("%" ++ q ++ "%") s = true ↔ isSubstr (lowerL q.data) (lowerL s.data) := by
  rw [ilikeMatch, pattern_data, lowerL_pattern]
  exact likeMatch_substr (lowerL_all_plain hq) (lowerL s.data)

/-- C8 counterexample: the query `"_"` (a LIKE wildcard) is non-empty, and
`search_products` on `sampleDB` returns the sample product even though
`"_"` occurs in neither its name nor its description. -/
theorem search_wildcard_cex :
    ((searchProducts sampleDB "_" 20).map (fun s => s.id) = [1]) ∧
    ¬isSubstr (lowerL ("_").data) (lowerL sampleProduct.name.data) ∧
    ¬isSubstr (lowerL ("_").data) (lowerL sampleProduct.description.data) := by
  refine ⟨rfl, ?_, ?_⟩
  · intro hsub
    have hmem := isSubstr_subset hsub '_' (by decide)
    revert hmem
    decide
  · intro hsub
    have hmem := isSubstr_subset hsub '_' (by decide)
    revert hmem
    decide

/-- C8 amended: for every non-empty search string free of the SQL LIKE
metacharacters `%`, `_` and `\`, every product `search_products` returns
contains the query, case-insensitively, in its name or description. -/
theorem search_substring_sound (db : DB) (q : String) (L : Nat)
    (hne : ¬q = "") (hplain : q.data.all plainChar = true)
    (s : ProductSummary) (h : s ∈ searchProducts db q L) :
    ∃ p ∈ db.products, s = mkSummary db p ∧
      (isSubstr (lowerL q.data) (lowerL p.name.data) ∨
       isSubstr (lowerL q.data) (lowerL p.description.data)) := by
  obtain ⟨p, hpmem, hflt, hs⟩ := mem_getProducts h
  have hmatch := hflt _ rfl
  simp only [matchesFilter, Bool.and_eq_true] at hmatch
  obtain ⟨-, hsearch⟩ := hmatch
  have hsearch2 : (if q = "" then true
      else ilikeMatch ("%" ++ q ++ "%") p.name
        || ilikeMatch ("%" ++ q ++ "%") p.description) = true := hsearch
  rw [if_neg hne, Bool.or_eq_true] at hsearch2
  refine ⟨p, hpmem, hs, ?_⟩
  rcases hsearch2 with hn | hd
  · exact Or.inl ((ilikeMatch_substr hplain p.name).mp hn)
  · exact Or.inr ((ilikeMatch_substr hplain p.description).mp hd)

/-- Witness for C8: searching the concrete store for "gadget". -/
theorem search_substring_sound_witness :
    ∃ p ∈ sampleDB.products, mkSummary sampleDB sampleProduct = mkSummary sampleDB p ∧
      (isSubstr (lowerL ("gadget").data) (lowerL p.name.data) ∨
       isSubstr (lowerL ("gadget").data) (lowerL p.description.data)) :=
  search_substring_sound sampleDB "gadget" 20 (by decide) (by decide) _ (by decide)
